import Mathlib

/-!
Verification of the Meridian RAG scoring engine (`pipeline/scoring.py`).

The engine is pure computation over rows fetched from a relational store:
we embed each scoring function as a Lean function over explicit row data.
Numeric values (Python floats / SQL numerics) are modelled as `ℚ`;
calendar dates as `ℤ` day numbers (so `(d2 - d1).days = d2 - d1`);
timestamps as `ℚ` seconds since an arbitrary epoch
(so `(t2 - t1).total_seconds() = t2 - t1`).
Wizard answers are `Option String` exactly as in the code, where a missing
row / NULL column yields `None` and comparisons against the enumerated
answer strings drive each modifier.
Fallible code paths (a Python expression that can raise) are embedded with
`Except String`.
-/

namespace Meridian

/-- Workstream row: `start_date`, `end_date`, `planned_budget` as read by
`scoring.py` (`SELECT start_date, end_date, planned_budget FROM workstreams`).
Dates are day numbers; `planned_budget` is nullable. -/
structure Workstream where
  start_date : ℤ
  end_date : ℤ
  planned_budget : Option ℚ
deriving DecidableEq

/-- Milestone row: `status`, `due_date` (nullable), `updated_at`
(`SELECT status, due_date FROM milestones`, plus `updated_at` used by the
staleness query). -/
structure Milestone where
  status : String
  due_date : Option ℤ
  updated_at : ℚ
deriving DecidableEq

/-- Spend-entry row: `amount` and `created_at`. -/
structure SpendEntry where
  amount : ℚ
  created_at : ℚ
deriving DecidableEq

/-- Blocker row: `status`, `date_raised`, `updated_at`. -/
structure Blocker where
  status : String
  date_raised : ℤ
  updated_at : ℚ
deriving DecidableEq

/-- The flat dict produced by `_get_wizard_config` (scoring.py 100-131), as far
as `_apply_wizard_modifiers` consumes it: the six wizard answers used by the
modifier steps.  A missing `wizard_config` row leaves every field `none`. -/
structure WizardConfig where
  q2_deadline_nature : Option String
  q4_budget_exposure : Option String
  q5_dependency_level : Option String
  q6_risk_level : Option String
  q7_phase : Option String
  q8_update_frequency : Option String
deriving DecidableEq

/-- The empty contribution of `_get_wizard_config` when no `wizard_config` row
exists: `config.get(...)` returns `None` for every answer. -/
def emptyWizardConfig : WizardConfig :=
  { q2_deadline_nature := none, q4_budget_exposure := none,
    q5_dependency_level := none, q6_risk_level := none,
    q7_phase := none, q8_update_frequency := none }

/-- The dict returned by `_apply_wizard_modifiers` (scoring.py 222-237):
resolved cutoffs, weights, staleness window, and the pass-through answers
needed inside the scoring functions. -/
structure Resolved where
  schedule_green : ℚ
  schedule_amber : ℚ
  budget_green : ℚ
  budget_amber : ℚ
  blocker_recent_days : ℤ
  blocker_aging_days : ℤ
  w_schedule : ℚ
  w_budget : ℚ
  w_blocker : ℚ
  staleness_days : ℚ
  q4_budget_exposure : Option String
  q5_dependency_level : Option String
  q7_phase : Option String
deriving DecidableEq

/-- Embedding of `STALENESS_WINDOWS.get(q8) or STALENESS_WINDOWS["weekly"]` (scoring.py
76-81, 170-172): an unknown or absent update-frequency answer falls back to
the weekly window of 8 days. -/
def stalenessWindow (q8 : Option String) : ℚ :=
  if q8 = some "daily" then 2
  else if q8 = some "weekly" then 8
  else if q8 = some "biweekly" then 16
  else if q8 = some "monthly" then 35
  else 8

/-- Modifier step 1, schedule green cutoff (scoring.py 174-181):
`hard_contractual` tightens to -5, `ongoing` loosens to -20, default -10. -/
def q2ScheduleGreen (q2 : Option String) : ℚ :=
  if q2 = some "hard_contractual" then -5
  else if q2 = some "ongoing" then -20
  else -10

/-- Modifier step 1, schedule amber cutoff (scoring.py 174-181). -/
def q2ScheduleAmber (q2 : Option String) : ℚ :=
  if q2 = some "hard_contractual" then -15
  else if q2 = some "ongoing" then -40
  else -25

/-- Modifier step 1, schedule weight (scoring.py 178-179): `ongoing` drops the
schedule weight to 0.10; every other answer keeps the default 0.40. -/
def q2WSchedule (q2 : Option String) : ℚ :=
  if q2 = some "ongoing" then 0.10 else 0.40

/-- Modifier step 2, budget weight (scoring.py 183-189). -/
def q4WBudget (q4 : Option String) : ℚ :=
  if q4 = some "client_billable" then 0.45
  else if q4 = some "informal_none" then 0.05
  else 0.35

/-- Modifier step 2, budget green cutoff (scoring.py 184-187). -/
def q4BudgetGreen (q4 : Option String) : ℚ :=
  if q4 = some "client_billable" then -3 else -5

/-- Modifier step 2, budget amber cutoff (scoring.py 184-187). -/
def q4BudgetAmber (q4 : Option String) : ℚ :=
  if q4 = some "client_billable" then -10 else -15

/-- Modifier step 3 (scoring.py 191-195): `blocked_external` halves a blocker
day cutoff with truncation (`float(int(x / 2))`; our cutoffs are positive so
`Int` floor division agrees with Python's truncation: 3→1, 7→3). -/
def q5HalveDays (q5 : Option String) (x : ℤ) : ℤ :=
  if q5 = some "blocked_external" then x / 2 else x

/-- Modifier step 4, schedule green cutoff (scoring.py 197-199):
`review_closing` hard-overrides to -10 regardless of prior modifications. -/
def q7ScheduleGreen (q7 : Option String) (prev : ℚ) : ℚ :=
  if q7 = some "review_closing" then -10 else prev

/-- Modifier step 4, budget amber cutoff (scoring.py 200-201):
`discovery` loosens to -20. -/
def q7BudgetAmber (q7 : Option String) (prev : ℚ) : ℚ :=
  if q7 = some "discovery" then -20 else prev

/-- Modifier step 5 additive adjustment (scoring.py 203-213): `high` adds +5,
`critical` adds +10, to all four schedule/budget cutoffs. -/
def q6Adj (q6 : Option String) : ℚ :=
  if q6 = some "high" then 5
  else if q6 = some "critical" then 10
  else 0

/-- Modifier step 5 staleness halving (scoring.py 209-214): `critical` halves
the (possibly already-modified) staleness window. -/
def q6Staleness (q6 : Option String) (prev : ℚ) : ℚ :=
  if q6 = some "critical" then prev / 2 else prev

/-- Embedding of `_apply_wizard_modifiers` (scoring.py 134-237): apply the wizard-answer
modifier steps q2, q4, q5, q7, q6 to the baseline thresholds and weights, in
that order, then renormalise the three weights by their sum. -/
def _apply_wizard_modifiers (config : WizardConfig) : Resolved :=
  let w_schedule := q2WSchedule config.q2_deadline_nature
  let w_budget := q4WBudget config.q4_budget_exposure
  let w_blocker : ℚ := 0.25
  let total_w := w_schedule + w_budget + w_blocker
  { schedule_green :=
      q7ScheduleGreen config.q7_phase (q2ScheduleGreen config.q2_deadline_nature)
        + q6Adj config.q6_risk_level,
    schedule_amber := q2ScheduleAmber config.q2_deadline_nature + q6Adj config.q6_risk_level,
    budget_green := q4BudgetGreen config.q4_budget_exposure + q6Adj config.q6_risk_level,
    budget_amber :=
      q7BudgetAmber config.q7_phase (q4BudgetAmber config.q4_budget_exposure)
        + q6Adj config.q6_risk_level,
    blocker_recent_days := q5HalveDays config.q5_dependency_level 3,
    blocker_aging_days := q5HalveDays config.q5_dependency_level 7,
    w_schedule := w_schedule / total_w,
    w_budget := w_budget / total_w,
    w_blocker := w_blocker / total_w,
    staleness_days :=
      q6Staleness config.q6_risk_level (stalenessWindow config.q8_update_frequency),
    q4_budget_exposure := config.q4_budget_exposure,
    q5_dependency_level := config.q5_dependency_level,
    q7_phase := config.q7_phase }

/-- Embedding of `_interp` (scoring.py 86-97): linear interpolation of `value` within
`[low, high]` onto `[outLow, outHigh]`, with the interpolation parameter
clamped to `[0, 1]` and `outLow` returned when `high == low`. -/
def _interp (value low high outLow outHigh : ℚ) : ℚ :=
  if high = low then outLow
  else outLow + max 0 (min 1 ((value - low) / (high - low))) * (outHigh - outLow)

/-- Time-elapsed percentage, clamped to `[0, 100]`; a zero-or-negative span
yields 100 (scoring.py 277-286, duplicated verbatim at 353-362). -/
def timeElapsedPct (start_date end_date today : ℤ) : ℚ :=
  let span_days := end_date - start_date
  let time_pct : ℚ :=
    if span_days ≤ 0 then 100
    else ((today - start_date : ℤ) : ℚ) / ((span_days : ℤ) : ℚ) * 100
  max 0 (min 100 time_pct)

/-- Milestone completion percentage (scoring.py 273-275). -/
def completionPct (milestones : List Milestone) : ℚ :=
  ((milestones.filter (fun m => decide (m.status = "complete"))).length : ℚ)
    / (milestones.length : ℚ) * 100

/-- Count of overdue incomplete milestones: status not complete, non-null
`due_date` strictly before today (scoring.py 302-308). -/
def overdueCount (milestones : List Milestone) (today : ℤ) : ℚ :=
  ((milestones.filter (fun m =>
      decide (m.status ≠ "complete") && m.due_date.any (fun d => decide (d < today)))).length : ℚ)

/-- The three-branch variance-to-score mapping shared verbatim by
`_score_schedule` (scoring.py 292-299) and `_score_budget` (370-375):
`sv ≥ green` → 100; `sv ≥ amber` → interpolate in `[amber, green] → [70, 99]`;
else interpolate `max (-100) sv` in `[-100, amber] → [1, 69]`. -/
def varianceBand (sv green_min amber_min : ℚ) : ℚ :=
  if sv ≥ green_min then 100
  else if sv ≥ amber_min then _interp sv amber_min green_min 70 99
  else _interp (max (-100) sv) (-100) amber_min 1 69

/-- Embedding of `_score_schedule` (scoring.py 240-311).  The workstream row is re-queried
inside the function; a missing row is `none`, and — as in the Python, where
`ws["start_date"]` on `None` raises — touching it after the milestone check is
an exception, embedded as `Except.error`.  Zero milestones return 100 before
the row is touched. -/
def _score_schedule (ws : Option Workstream) (milestones : List Milestone)
    (thresholds : Resolved) (today : ℤ) : Except String ℚ :=
  if milestones = [] then Except.ok 100
  else
    match ws with
    | none => Except.error "TypeError: NoneType is not subscriptable"
    | some w =>
      let sv := completionPct milestones - timeElapsedPct w.start_date w.end_date today
      let score := varianceBand sv thresholds.schedule_green thresholds.schedule_amber
      let score2 :=
        if thresholds.q7_phase = some "review_closing"
        then score - overdueCount milestones today * 10
        else score
      Except.ok (max 0 (min 100 score2))

/-- Embedding of `_score_budget` (scoring.py 314-377).  `planned_budget` is taken from the
workstream row when present (`ws["planned_budget"] if ws else None`); the
spend total is `COALESCE(SUM(amount), 0)`, i.e. the sum of the amount list.
Short-circuits to 100 on `informal_none` exposure or a null/zero budget, in
which case the workstream dates are never touched. -/
def _score_budget (ws : Option Workstream) (spend_amounts : List ℚ)
    (thresholds : Resolved) (today : ℤ) : ℚ :=
  if thresholds.q4_budget_exposure = some "informal_none" then 100
  else
    match ws with
    | none => 100
    | some w =>
      match w.planned_budget with
      | none => 100
      | some planned_budget =>
        if planned_budget = 0 then 100
        else
          let actual_spend := spend_amounts.sum
          let time_pct := timeElapsedPct w.start_date w.end_date today
          let planned_to_date := planned_budget * time_pct / 100
          let bv := (planned_to_date - actual_spend) / planned_budget * 100
          max 0 (min 100 (varianceBand bv thresholds.budget_green thresholds.budget_amber))

/-- Embedding of `_score_blockers` (scoring.py 380-426).  Only rows with `status = 'open'`
are fetched (`WHERE ... AND status = 'open'`); the lookup table scores 100 for
none, 40 for two or more, and 80/55/25 for exactly one by age against the
resolved day cutoffs; `blocked_external` then adds the -10 penalty with a
floor at 0. -/
def _score_blockers (blockers : List Blocker) (thresholds : Resolved) (today : ℤ) : ℚ :=
  let openBlockers := blockers.filter (fun b => decide (b.status = "open"))
  let score : ℚ :=
    match openBlockers with
    | [] => 100
    | [b] =>
      let age := today - b.date_raised
      if age < thresholds.blocker_recent_days then 80
      else if age ≤ thresholds.blocker_aging_days then 55
      else 25
    | _ => 40
  if thresholds.q5_dependency_level = some "blocked_external"
  then max 0 (score + (-10))
  else score

/-- Maximum of a list of timestamps; `none` on the empty list, matching
SQL `MAX` over zero rows. -/
def maxTimestamp (l : List ℚ) : Option ℚ :=
  match l with
  | [] => none
  | t :: ts => some (ts.foldl max t)

/-- Embedding of `_check_staleness` (scoring.py 429-465).  The SQL is
`SELECT GREATEST(MAX(m.updated_at), MAX(s.created_at), MAX(b.updated_at))
FROM milestones m, spend_entries s, blockers b WHERE ...` — a comma (inner
cross) join of the three fact tables.  The join is empty as soon as ANY one
of the three tables has no row for the workstream, in which case every `MAX`
is NULL, `GREATEST` is NULL, and the function returns `False`.  When all
three tables have rows, each per-table `MAX` over the cross product equals
that table's maximum, and `GREATEST` of the three is the overall latest.
Otherwise stale iff the gap in days (seconds / 86400) exceeds the window. -/
def _check_staleness (m_updated s_created b_updated : List ℚ)
    (staleness_days : ℚ) (now : ℚ) : Bool :=
  match maxTimestamp m_updated, maxTimestamp s_created, maxTimestamp b_updated with
  | some mm, some ms, some mb =>
    decide ((now - max (max mm ms) mb) / 86400 > staleness_days)
  | _, _, _ => false

/-- Embedding of `round(x, 2)` on the persisted scores (scoring.py 520-524), embedded as
rounding `x * 100` to the nearest integer over `ℚ`. -/
def round2 (x : ℚ) : ℚ := (round (x * 100) : ℤ) / 100

/-- Composite weighted sum (scoring.py 507-511). -/
def compositeScore (thresholds : Resolved) (schedule budget blocker : ℚ) : ℚ :=
  schedule * thresholds.w_schedule + budget * thresholds.w_budget
    + blocker * thresholds.w_blocker

/-- Embedding of the `COMPOSITE_THRESHOLDS` mapping (scoring.py 66-72, 513-518): fixed
green/amber cutoffs 70 and 40, not touched by any wizard modifier. -/
def ragStatusOf (composite : ℚ) : String :=
  if composite ≥ 70 then "green"
  else if composite ≥ 40 then "amber"
  else "red"

/-- The result dict of `calculate_rag` (scoring.py 478-487): the shape of the
persisted `rag_scores` row minus `calculated_at`. -/
structure ScoreResult where
  schedule_score : ℚ
  budget_score : ℚ
  blocker_score : ℚ
  composite_score : ℚ
  rag_status : String
  is_stale : Bool
deriving DecidableEq

/-- The absolute-last-resort zeroed red/stale sentinel (scoring.py 574-582). -/
def zeroedResult : ScoreResult :=
  { schedule_score := 0, budget_score := 0, blocker_score := 0,
    composite_score := 0, rag_status := "red", is_stale := true }

/-- One invocation's external world: the rows the engine reads, the two
clock providers, and the failure behaviour of the store.  `dbFailure` injects
an exception raised anywhere inside the main `try` block (connection drop,
query error, or the upsert write failing); `fallbackFailure` injects an
exception in the nested fallback read of `rag_scores`; `prior` is the last
persisted `rag_scores` row, if any. -/
structure Env where
  wizard : Option WizardConfig
  ws : Option Workstream
  milestones : List Milestone
  spends : List SpendEntry
  blockers : List Blocker
  today : ℤ
  now : ℚ
  dbFailure : Option String
  fallbackFailure : Bool
  prior : Option ScoreResult

/-- The body of `calculate_rag`'s main `try` block (scoring.py 492-537):
resolve the wizard config (a missing row contributes nothing), apply the
modifiers, run the three scorers and the staleness check, combine, round.
An injected storage failure, or a genuine exception inside a scorer,
surfaces as `Except.error`. -/
def calculateRagCore (env : Env) : Except String ScoreResult :=
  match env.dbFailure with
  | some e => Except.error e
  | none =>
    let config := env.wizard.getD emptyWizardConfig
    let thresholds := _apply_wizard_modifiers config
    match _score_schedule env.ws env.milestones thresholds env.today with
    | Except.error e => Except.error e
    | Except.ok schedule_score =>
      let budget_score :=
        _score_budget env.ws (env.spends.map SpendEntry.amount) thresholds env.today
      let blocker_score := _score_blockers env.blockers thresholds env.today
      let is_stale :=
        _check_staleness (env.milestones.map Milestone.updated_at)
          (env.spends.map SpendEntry.created_at)
          (env.blockers.map Blocker.updated_at)
          thresholds.staleness_days env.now
      let composite := compositeScore thresholds schedule_score budget_score blocker_score
      Except.ok
        { schedule_score := round2 schedule_score,
          budget_score := round2 budget_score,
          blocker_score := round2 blocker_score,
          composite_score := round2 composite,
          rag_status := ragStatusOf composite,
          is_stale := is_stale }

/-- Embedding of `calculate_rag` (scoring.py 470-582): the sole public entry point.
On success, returns the computed result (also upserted to `rag_scores`).
On any exception, falls back to the last persisted row; if that read also
fails or no row exists, returns the zeroed red/stale sentinel.  Total by
construction — no exception escapes. -/
def calculate_rag (env : Env) : ScoreResult :=
  match calculateRagCore env with
  | Except.ok result => result
  | Except.error _ =>
    if env.fallbackFailure then zeroedResult
    else
      match env.prior with
      | some row => row
      | none => zeroedResult

/- ── Spec-side definitions (for refinement claims), written from spec.md ── -/

/-- Spec §4.3/§4.4 band mapping, as worded: `SV ≥ g → 100`;
`a ≤ SV < g` → linearly interpolate SV from `[a, g]` onto `[70, 99]`;
`SV < a` → linearly interpolate `clamp(SV, −100, a)` from `[−100, a]` onto
`[1, 69]` (plain lerp formulas, no clamping of the parameter). -/
def specBand (sv g a : ℚ) : ℚ :=
  if sv ≥ g then 100
  else if sv ≥ a then 70 + (sv - a) / (g - a) * 29
  else 1 + (max (-100) sv - (-100)) / (a - (-100)) * 68

/-- Spec §4.3 elapsed percentage, as worded: `clamp((today − start) /
(end − start) × 100, 0, 100)`, with a zero-or-negative span giving 100. -/
def elapsedPctSpec (start_date end_date today : ℤ) : ℚ :=
  if end_date - start_date ≤ 0 then 100
  else max 0 (min 100 (((today - start_date : ℤ) : ℚ)
    / ((end_date - start_date : ℤ) : ℚ) * 100))

/-- Spec §4.3 schedule scorer, as worded: 100 with zero milestones, otherwise
the band mapping of `SV = completion_pct − elapsed_pct`, minus 10 per overdue
incomplete milestone when phase = review_closing, clamped to `[0, 100]`. -/
def scheduleSpecScore (w : Workstream) (milestones : List Milestone)
    (g a : ℚ) (phase : Option String) (today : ℤ) : ℚ :=
  if milestones = [] then 100
  else
    let sv := completionPct milestones - elapsedPctSpec w.start_date w.end_date today
    let base := specBand sv g a
    let withPenalty :=
      if phase = some "review_closing"
      then base - overdueCount milestones today * 10
      else base
    max 0 (min 100 withPenalty)

/-- Spec §4.4 budget scorer, as worded: 100 when exposure is informal_none or
the planned budget is null/zero (regardless of spend); otherwise the band
mapping of `BV = (planned×elapsed/100 − Σ spend) / planned × 100` with the
resolved budget cutoffs, clamped to `[0, 100]`. -/
def budgetSpecScore (w : Workstream) (spend_amounts : List ℚ)
    (informal_none : Bool) (g a : ℚ) (today : ℤ) : ℚ :=
  if informal_none then 100
  else
    match w.planned_budget with
    | none => 100
    | some planned =>
      if planned = 0 then 100
      else
        let bv := (planned * elapsedPctSpec w.start_date w.end_date today / 100
          - spend_amounts.sum) / planned * 100
        max 0 (min 100 (specBand bv g a))

/-- Spec §4.5 raw blocker score, before the external-dependency penalty:
100 for zero open blockers, 40 for two or more, and 80/55/25 for exactly one
by age against the resolved recent/aging cutoffs. -/
def rawBlockerScore (blockers : List Blocker) (recent aging : ℤ) (today : ℤ) : ℚ :=
  match blockers.filter (fun b => decide (b.status = "open")) with
  | [] => 100
  | [b] =>
    let age := today - b.date_raised
    if age < recent then 80
    else if age ≤ aging then 55
    else 25
  | _ => 40

/-- Spec §4.6 staleness, as worded: the most recent timestamp across all three
fact tables together; false exactly when no rows exist in any of the three
tables; otherwise stale iff the gap exceeds the window. -/
def checkStalenessSpec (m_updated s_created b_updated : List ℚ)
    (staleness_days : ℚ) (now : ℚ) : Bool :=
  match maxTimestamp (m_updated ++ s_created ++ b_updated) with
  | none => false
  | some latest => decide ((now - latest) / 86400 > staleness_days)

/-- The baseline parameter set of spec §4.2's table: what the Modifier
Compiler must produce when every wizard answer is absent (defaults -10 and
-25, -5 and -15, 3/7 days, weights 0.40/0.35/0.25, weekly window 8). -/
def baselineResolved : Resolved :=
  { schedule_green := -10, schedule_amber := -25,
    budget_green := -5, budget_amber := -15,
    blocker_recent_days := 3, blocker_aging_days := 7,
    w_schedule := 2/5, w_budget := 7/20, w_blocker := 1/4,
    staleness_days := 8,
    q4_budget_exposure := none, q5_dependency_level := none, q7_phase := none }

/-- Spec §8 scenario fixture: four milestones, none complete, no due dates
(workstream start = day 0, end = day 10, today = day 5 → 50% elapsed,
completion 0%). -/
def exampleMilestones : List Milestone :=
  [⟨"not_started", none, 0⟩, ⟨"not_started", none, 0⟩,
   ⟨"not_started", none, 0⟩, ⟨"not_started", none, 0⟩]

/- ── Shared helper lemmas ── -/

/-- The clamp `max 0 (min 100 x)` always lands in `[0, 100]`. -/
lemma clamp_mem (x : ℚ) : 0 ≤ max 0 (min 100 x) ∧ max 0 (min 100 x) ≤ 100 := by
  constructor
  · exact le_max_left 0 _
  · exact max_le (by norm_num) (min_le_left 100 x)

/-- With cutoffs in their intended configuration (`amber < green` and
`amber > -100`), the code's clamped `_interp` bands agree with the spec's
plain lerp bands: inside each band the interpolation parameter already lies
in `[0, 1)`, so the clamp is a no-op. -/
lemma varianceBand_eq_specBand (g a : ℚ) (h1 : a < g) (h2 : -100 < a) (sv : ℚ) :
    varianceBand sv g a = specBand sv g a := by
  unfold varianceBand specBand _interp
  rcases le_or_lt g sv with hg | hg
  · rw [if_pos hg, if_pos hg]
  · have hng : ¬ sv ≥ g := not_le.mpr hg
    rw [if_neg hng, if_neg hng]
    rcases le_or_lt a sv with ha | ha
    · have hpos : (0 : ℚ) < g - a := by linarith
      have ht0 : 0 ≤ (sv - a) / (g - a) := div_nonneg (by linarith) hpos.le
      have ht1 : (sv - a) / (g - a) ≤ 1 := by
        rw [div_le_one hpos]; linarith
      rw [if_pos ha, if_pos ha, if_neg (by intro h; exact absurd h (ne_of_gt h1))]
      rw [min_eq_right ht1, max_eq_right ht0]
      norm_num
    · have hne : a ≠ -100 := by intro h; rw [h] at h2; exact absurd h2 (lt_irrefl _)
      have hpos : (0 : ℚ) < a - (-100) := by linarith
      have hlo : -100 ≤ max (-100 : ℚ) sv := le_max_left _ _
      have hhi : max (-100 : ℚ) sv ≤ a := max_le (by linarith) (by linarith)
      have ht0 : 0 ≤ (max (-100 : ℚ) sv - (-100)) / (a - (-100)) :=
        div_nonneg (by linarith) hpos.le
      have ht1 : (max (-100 : ℚ) sv - (-100)) / (a - (-100)) ≤ 1 := by
        rw [div_le_one hpos]; linarith
      rw [if_neg (not_le.mpr ha), if_neg (not_le.mpr ha), if_neg hne]
      rw [min_eq_right ht1, max_eq_right ht0]
      norm_num

/-- The code's elapsed-percentage computation coincides with the spec's
wording (the code clamps the 100 from the degenerate-span branch too, which
is the identity). -/
lemma timeElapsedPct_eq_spec (s e t : ℤ) :
    timeElapsedPct s e t = elapsedPctSpec s e t := by
  unfold timeElapsedPct elapsedPctSpec
  by_cases h : e - s ≤ 0
  · simp only [h, if_true, if_pos h]
    norm_num
  · simp only [h, if_false, if_neg h]

/-- The pre-normalisation weight total is positive for every wizard config
(each weight stays strictly positive under all modifiers). -/
lemma totalWeight_pos (q2 q4 : Option String) :
    0 < q2WSchedule q2 + q4WBudget q4 + 0.25 := by
  unfold q2WSchedule q4WBudget
  split_ifs <;> norm_num

/-- After renormalisation, the three weights sum to exactly 1. -/
lemma resolved_weights_sum_one (config : WizardConfig) :
    (_apply_wizard_modifiers config).w_schedule
      + (_apply_wizard_modifiers config).w_budget
      + (_apply_wizard_modifiers config).w_blocker = 1 := by
  have h := totalWeight_pos config.q2_deadline_nature config.q4_budget_exposure
  unfold _apply_wizard_modifiers
  simp only
  rw [div_add_div_same, div_add_div_same, div_self (ne_of_gt h)]

/-- Each renormalised weight is nonnegative. -/
lemma resolved_weights_nonneg (config : WizardConfig) :
    0 ≤ (_apply_wizard_modifiers config).w_schedule
      ∧ 0 ≤ (_apply_wizard_modifiers config).w_budget
      ∧ 0 ≤ (_apply_wizard_modifiers config).w_blocker := by
  have h := (totalWeight_pos config.q2_deadline_nature config.q4_budget_exposure).le
  unfold _apply_wizard_modifiers
  refine ⟨div_nonneg ?_ h, div_nonneg ?_ h, div_nonneg (by norm_num) h⟩
  · unfold q2WSchedule; split_ifs <;> norm_num
  · unfold q4WBudget; split_ifs <;> norm_num

/-- The mapping `ragStatusOf` only ever produces the three legal status strings. -/
lemma ragStatusOf_cases (c : ℚ) :
    ragStatusOf c = "green" ∨ ragStatusOf c = "amber" ∨ ragStatusOf c = "red" := by
  unfold ragStatusOf
  split_ifs <;> simp

/- ── Claim theorems ── -/

/-- C1: at a workstream with one milestone row (updated at epoch second 0),
no spend rows and no blocker rows, a weekly window of 8 days, and `now` 100
days after the milestone's update, `_check_staleness` returns `false` even
though rows exist and the 100-day gap far exceeds the window — because its
comma-joined SQL yields an empty cross product (hence NULL aggregates) as
soon as any one fact table is empty.  The spec's reading of the same input
(§4.6: latest across the three tables together, false only when all three
are empty) is stale.  This contradicts the claim and the function's own
docstring. -/
theorem C1_staleness_cross_join_bug :
    _check_staleness [0] [] [] 8 8640000 = false
    ∧ checkStalenessSpec [0] [] [] 8 8640000 = true
    ∧ ((8640000 : ℚ) - 0) / 86400 > 8 := by
  refine ⟨rfl, ?_, by norm_num⟩
  unfold checkStalenessSpec maxTimestamp
  norm_num

/-- C5: modifier ordering.  Whenever q7 = review_closing, the resolved
schedule green cutoff is the hard override −10 plus only the step-5 risk
adjustment — whatever q2 set is replaced, not added to.  In particular, with
q2 = hard_contractual, q7 = review_closing and q6 = critical the resolved
schedule green cutoff is −10 + 10 = 0 and the schedule amber cutoff is
−15 + 10 = −5. -/
theorem C5_modifier_order (config : WizardConfig)
    (h7 : config.q7_phase = some "review_closing") :
    (_apply_wizard_modifiers config).schedule_green = -10 + q6Adj config.q6_risk_level
    ∧ (config.q2_deadline_nature = some "hard_contractual" →
        config.q6_risk_level = some "critical" →
        (_apply_wizard_modifiers config).schedule_green = 0
        ∧ (_apply_wizard_modifiers config).schedule_amber = -5) := by
  constructor
  · unfold _apply_wizard_modifiers q7ScheduleGreen
    simp [h7, add_comm]
  · intro h2 h6
    unfold _apply_wizard_modifiers q7ScheduleGreen q2ScheduleAmber q6Adj
    simp [h2, h6, h7]
    norm_num

/-- C5 witness: the example configuration of the claim, evaluated. -/
theorem C5_modifier_order_witness :
    (_apply_wizard_modifiers
      ⟨some "hard_contractual", none, none, some "critical", some "review_closing", none⟩).schedule_green = 0
    ∧ (_apply_wizard_modifiers
      ⟨some "hard_contractual", none, none, some "critical", some "review_closing", none⟩).schedule_amber = -5 :=
  (C5_modifier_order
    ⟨some "hard_contractual", none, none, some "critical", some "review_closing", none⟩
    rfl).2 rfl rfl

/-- C6: for every combination of wizard answers (hence every combination of
q2/q4 weight modifiers), the renormalised weights sum to exactly 1 over ℚ
(a fortiori within 1e-9). -/
theorem C6_weights_sum_one (config : WizardConfig) :
    (_apply_wizard_modifiers config).w_schedule
      + (_apply_wizard_modifiers config).w_budget
      + (_apply_wizard_modifiers config).w_blocker = 1 :=
  resolved_weights_sum_one config

/-- C10: the composite score is the weighted sum of the three sub-scores, and
`rag_status` is determined solely by the composite through the fixed cutoffs
70 and 40 (green iff ≥ 70, amber iff in [40, 70), red iff < 40 — the mapping
takes no wizard input at all); the claim's example 0.40×85 + 0.35×60 +
0.25×90 = 77.5 maps to "green". -/
theorem C10_composite_evaluator (thr : Resolved) (s b k c : ℚ) :
    compositeScore thr s b k
      = s * thr.w_schedule + b * thr.w_budget + k * thr.w_blocker
    ∧ (ragStatusOf c = "green" ↔ 70 ≤ c)
    ∧ (ragStatusOf c = "amber" ↔ 40 ≤ c ∧ c < 70)
    ∧ (ragStatusOf c = "red" ↔ c < 40)
    ∧ compositeScore baselineResolved 85 60 90 = 77.5
    ∧ ragStatusOf (compositeScore baselineResolved 85 60 90) = "green" := by
  have hc : compositeScore baselineResolved 85 60 90 = 77.5 := by
    unfold compositeScore baselineResolved
    norm_num
  refine ⟨rfl, ?_, ?_, ?_, hc, ?_⟩
  · unfold ragStatusOf
    split_ifs with h1 h2 <;> simp_all
  · unfold ragStatusOf
    split_ifs with h1 h2 <;> simp_all
  · unfold ragStatusOf
    split_ifs with h1 h2 <;> simp_all
    linarith
  · rw [hc]
    unfold ragStatusOf
    norm_num

/-- With a present workstream row the schedule scorer cannot raise: every
branch after the row access produces a value. -/
lemma score_schedule_some_ok (w : Workstream) (ms : List Milestone)
    (thr : Resolved) (today : ℤ) :
    ∃ q, _score_schedule (some w) ms thr today = Except.ok q := by
  unfold _score_schedule
  by_cases hms : ms = []
  · rw [if_pos hms]
    exact ⟨100, rfl⟩
  · rw [if_neg hms]
    exact ⟨_, rfl⟩

/-- C3: zero-data policies.  With a missing wizard row the modifier compiler
produces exactly the baseline parameter set; a workstream with zero
milestones scores schedule 100; under referential integrity (no workstream
row → no milestone rows) the schedule scorer never raises; a missing
workstream row, a null planned budget or a zero planned budget scores budget
100; zero blockers with the absent-wizard parameters score blocker 100; and
staleness over empty fact tables is false. -/
theorem C3_zero_data_policies :
    _apply_wizard_modifiers emptyWizardConfig = baselineResolved
    ∧ (∀ ws thr today, _score_schedule ws ([] : List Milestone) thr today = Except.ok 100)
    ∧ (∀ ws ms thr today, (ws = none → ms = []) →
        ((_score_schedule ws ms thr today).toOption.isSome = true))
    ∧ (∀ spends thr today, _score_budget none spends thr today = 100)
    ∧ (∀ sd ed spends thr today,
        _score_budget (some ⟨sd, ed, none⟩) spends thr today = 100)
    ∧ (∀ sd ed spends thr today,
        _score_budget (some ⟨sd, ed, some 0⟩) spends thr today = 100)
    ∧ (∀ today, _score_blockers [] (_apply_wizard_modifiers emptyWizardConfig) today = 100)
    ∧ (∀ d n, _check_staleness [] [] [] d n = false) := by
  refine ⟨?_, ?_, ?_, ?_, ?_, ?_, ?_, ?_⟩
  · unfold _apply_wizard_modifiers emptyWizardConfig baselineResolved q2WSchedule
      q4WBudget q2ScheduleGreen q2ScheduleAmber q4BudgetGreen q4BudgetAmber
      q5HalveDays q7ScheduleGreen q7BudgetAmber q6Adj q6Staleness stalenessWindow
    simp only [Resolved.mk.injEq, reduceCtorEq, if_false]
    norm_num
  · intro ws thr today
    rfl
  · intro ws ms thr today h
    cases ws with
    | none =>
      rw [h rfl]
      rfl
    | some w =>
      obtain ⟨q, hq⟩ := score_schedule_some_ok w ms thr today
      rw [hq]
      rfl
  · intro spends thr today
    unfold _score_budget
    split <;> rfl
  · intro sd ed spends thr today
    unfold _score_budget
    split <;> rfl
  · intro sd ed spends thr today
    unfold _score_budget
    split
    · rfl
    · simp
  · intro today
    rfl
  · intro d n
    rfl

/-- C3 witness: concrete zero-data workstream (no wizard row, no workstream
row, no facts) at day 0. -/
theorem C3_zero_data_policies_witness :
    (_score_schedule none ([] : List Milestone) baselineResolved 0).toOption.isSome = true :=
  C3_zero_data_policies.2.2.1 none [] baselineResolved 0 (fun _ => rfl)

/-- C4: clamping invariant.  Every value the schedule scorer can return, every
budget score, every blocker score, and the composite under the resolved
weights of any wizard configuration (given sub-scores in range) lies in
[0, 100] — for arbitrary, including adversarial, inputs. -/
theorem C4_scores_in_range :
    (∀ ws ms thr today q,
        _score_schedule ws ms thr today = Except.ok q → 0 ≤ q ∧ q ≤ 100)
    ∧ (∀ ws spends thr today,
        0 ≤ _score_budget ws spends thr today ∧ _score_budget ws spends thr today ≤ 100)
    ∧ (∀ blockers thr today,
        0 ≤ _score_blockers blockers thr today ∧ _score_blockers blockers thr today ≤ 100)
    ∧ (∀ config s b k, 0 ≤ s → s ≤ 100 → 0 ≤ b → b ≤ 100 → 0 ≤ k → k ≤ 100 →
        0 ≤ compositeScore (_apply_wizard_modifiers config) s b k
        ∧ compositeScore (_apply_wizard_modifiers config) s b k ≤ 100) := by
  refine ⟨?_, ?_, ?_, ?_⟩
  · intro ws ms thr today q h
    unfold _score_schedule at h
    split at h
    · simp only [Except.ok.injEq] at h
      subst h
      norm_num
    · split at h
      · exact absurd h (by simp)
      · simp only [Except.ok.injEq] at h
        subst h
        exact clamp_mem _
  · intro ws spends thr today
    unfold _score_budget
    split
    · norm_num
    · split
      · norm_num
      · split
        · norm_num
        · split
          · norm_num
          · exact clamp_mem _
  · intro blockers thr today
    unfold _score_blockers
    simp only
    split
    · constructor
      · exact le_max_left _ _
      · refine max_le (by norm_num) ?_
        split
        · norm_num
        · split_ifs <;> norm_num
        · norm_num
    · constructor
      · split
        · norm_num
        · split_ifs <;> norm_num
        · norm_num
      · split
        · norm_num
        · split_ifs <;> norm_num
        · norm_num
  · intro config s b k hs0 hs1 hb0 hb1 hk0 hk1
    obtain ⟨hw1, hw2, hw3⟩ := resolved_weights_nonneg config
    have hsum := resolved_weights_sum_one config
    unfold compositeScore
    constructor
    · exact add_nonneg (add_nonneg (mul_nonneg hs0 hw1) (mul_nonneg hb0 hw2))
        (mul_nonneg hk0 hw3)
    · calc s * (_apply_wizard_modifiers config).w_schedule
            + b * (_apply_wizard_modifiers config).w_budget
            + k * (_apply_wizard_modifiers config).w_blocker
          ≤ 100 * (_apply_wizard_modifiers config).w_schedule
            + 100 * (_apply_wizard_modifiers config).w_budget
            + 100 * (_apply_wizard_modifiers config).w_blocker := by
            gcongr
      _ = 100 := by linear_combination 100 * hsum

/-- C4 witness: the schedule part applied at the empty-milestone workstream,
whose score is the literal 100. -/
theorem C4_scores_in_range_witness : 0 ≤ (100 : ℚ) ∧ (100 : ℚ) ≤ 100 :=
  C4_scores_in_range.1 none [] baselineResolved 0 100 rfl

/-- C9: the blocker scorer equals the spec's raw lookup (100 for zero open
blockers, 40 for two or more of any age, 80/55/25 for exactly one by age
against the resolved cutoffs) followed — exactly when dependency_level =
blocked_external — by a subtraction of exactly 10 floored at 0; the raw-25
single-blocker case with the external penalty lands on 15. -/
theorem C9_blocker_scorer (blockers : List Blocker) (thr : Resolved) (today : ℤ)
    (hra : thr.blocker_recent_days ≤ thr.blocker_aging_days) :
    (_score_blockers blockers thr today =
      if thr.q5_dependency_level = some "blocked_external"
      then max 0 (rawBlockerScore blockers thr.blocker_recent_days thr.blocker_aging_days today - 10)
      else rawBlockerScore blockers thr.blocker_recent_days thr.blocker_aging_days today)
    ∧ (blockers.filter (fun b => decide (b.status = "open")) = [] →
        rawBlockerScore blockers thr.blocker_recent_days thr.blocker_aging_days today = 100)
    ∧ (2 ≤ (blockers.filter (fun b => decide (b.status = "open"))).length →
        rawBlockerScore blockers thr.blocker_recent_days thr.blocker_aging_days today = 40)
    ∧ (∀ b, blockers.filter (fun x => decide (x.status = "open")) = [b] →
        (today - b.date_raised < thr.blocker_recent_days →
          rawBlockerScore blockers thr.blocker_recent_days thr.blocker_aging_days today = 80)
        ∧ (thr.blocker_recent_days ≤ today - b.date_raised →
            today - b.date_raised ≤ thr.blocker_aging_days →
            rawBlockerScore blockers thr.blocker_recent_days thr.blocker_aging_days today = 55)
        ∧ (thr.blocker_aging_days < today - b.date_raised →
            rawBlockerScore blockers thr.blocker_recent_days thr.blocker_aging_days today = 25))
    ∧ _score_blockers [⟨"open", 0, 0⟩]
        (_apply_wizard_modifiers ⟨none, none, some "blocked_external", none, none, none⟩) 10
        = 15 := by
  refine ⟨?_, ?_, ?_, ?_, ?_⟩
  · unfold _score_blockers rawBlockerScore
    simp only [sub_eq_add_neg]
  · intro h
    unfold rawBlockerScore
    rw [h]
  · intro h
    unfold rawBlockerScore
    rcases hfil : blockers.filter (fun b => decide (b.status = "open")) with _ | ⟨b1, _ | ⟨b2, rest⟩⟩
    · rw [hfil] at h; simp at h
    · rw [hfil] at h; simp at h
    · rw [hfil]
  · intro b h
    refine ⟨?_, ?_, ?_⟩
    · intro hage
      unfold rawBlockerScore
      rw [h]
      simp only [if_pos hage]
    · intro h1 h2
      unfold rawBlockerScore
      rw [h]
      simp only [if_neg (not_lt.mpr h1), if_pos h2]
    · intro hage
      unfold rawBlockerScore
      rw [h]
      simp only [if_neg (not_lt.mpr (le_trans hra hage.le)), if_neg (not_le.mpr hage)]
  · unfold _score_blockers _apply_wizard_modifiers q5HalveDays
    norm_num

/-- C9 witness: one open blocker of age 10 days against the baseline cutoffs
(recent 3, aging 7, no external dependency) scores the raw 25. -/
theorem C9_blocker_scorer_witness :
    _score_blockers [⟨"open", 0, 0⟩] baselineResolved 10 = 25 := by
  have h := C9_blocker_scorer [⟨"open", 0, 0⟩] baselineResolved 10 (by decide)
  rw [h.1]
  simp [rawBlockerScore, baselineResolved]

/-- C7: the schedule scorer returns exactly 100 for zero milestones, and for
any present workstream row with cutoffs in their resolved configuration
(amber < green, amber > −100) it computes exactly the spec's algorithm:
SV = completion − elapsed, the two lerp bands onto [70, 99] and [1, 69], the
−10-per-overdue-incomplete-milestone penalty under review_closing, and the
final clamp.  The spec's scenario — 10-day span, day 5, 0 of 4 milestones
complete, default cutoffs — evaluates to 139/3 ≈ 46.33. -/
theorem C7_schedule_scorer :
    (∀ ws thr today, _score_schedule ws ([] : List Milestone) thr today = Except.ok 100)
    ∧ (∀ w ms thr today, thr.schedule_amber < thr.schedule_green →
        -100 < thr.schedule_amber →
        _score_schedule (some w) ms thr today =
          Except.ok (scheduleSpecScore w ms thr.schedule_green thr.schedule_amber
            thr.q7_phase today))
    ∧ _score_schedule (some ⟨0, 10, none⟩) exampleMilestones baselineResolved 5
        = Except.ok (139 / 3) := by
  refine ⟨fun ws thr today => rfl, ?_, ?_⟩
  · intro w ms thr today h1 h2
    unfold _score_schedule scheduleSpecScore
    by_cases hms : ms = []
    · rw [if_pos hms, if_pos hms]
    · rw [if_neg hms, if_neg hms]
      simp only [timeElapsedPct_eq_spec,
        varianceBand_eq_specBand thr.schedule_green thr.schedule_amber h1 h2]
  · have hcomp : completionPct exampleMilestones = 0 := by
      have hfil : exampleMilestones.filter (fun m => decide (m.status = "complete")) = [] := by
        simp [exampleMilestones]
      rw [completionPct, hfil]
      norm_num
    have htime : timeElapsedPct 0 10 5 = 50 := by
      rw [timeElapsedPct]
      norm_num [min_def, max_def]
    have hinterp : _interp (-50) (-100) (-25) 1 69 = 139 / 3 := by
      unfold _interp
      norm_num
    have hband : varianceBand (0 - 50) baselineResolved.schedule_green
        baselineResolved.schedule_amber = 139 / 3 := by
      rw [varianceBand, baselineResolved]
      norm_num [min_def, max_def, hinterp]
    rw [_score_schedule]
    rw [if_neg (by simp [exampleMilestones] : ¬ exampleMilestones = [])]
    simp only [hcomp, htime, hband]
    rw [if_neg (by simp [baselineResolved] : ¬ baselineResolved.q7_phase = some "review_closing")]
    rw [max_eq_right, min_eq_right] <;> norm_num

/-- C7 witness: the refinement applied at the baseline cutoffs (amber −25 <
green −10, −100 < −25) on a one-complete-milestone workstream. -/
theorem C7_schedule_scorer_witness :
    _score_schedule (some ⟨0, 10, none⟩) [⟨"complete", none, 0⟩] baselineResolved 5 =
      Except.ok (scheduleSpecScore ⟨0, 10, none⟩ [⟨"complete", none, 0⟩]
        baselineResolved.schedule_green baselineResolved.schedule_amber
        baselineResolved.q7_phase 5) :=
  C7_schedule_scorer.2.1 ⟨0, 10, none⟩ [⟨"complete", none, 0⟩] baselineResolved 5
    (by norm_num [baselineResolved]) (by norm_num [baselineResolved])

/-- C8: the budget scorer short-circuits to exactly 100 whenever
budget_exposure = informal_none or the planned budget is null/zero,
regardless of spend; otherwise, with cutoffs in their resolved configuration
(amber < green, amber > −100), it computes exactly the spec's algorithm:
BV = (planned × elapsed/100 − Σ spend) / planned × 100 with the schedule
scorer's elapsed percentage, the same two lerp bands onto [70, 99] and
[1, 69] over the resolved budget cutoffs, and the final clamp. -/
theorem C8_budget_scorer :
    (∀ ws spends thr today, thr.q4_budget_exposure = some "informal_none" →
        _score_budget ws spends thr today = 100)
    ∧ (∀ w spends thr today,
        w.planned_budget = none ∨ w.planned_budget = some 0 →
        _score_budget (some w) spends thr today = 100)
    ∧ (∀ w spends thr today, thr.budget_amber < thr.budget_green →
        -100 < thr.budget_amber →
        _score_budget (some w) spends thr today =
          budgetSpecScore w spends
            (decide (thr.q4_budget_exposure = some "informal_none"))
            thr.budget_green thr.budget_amber today) := by
  refine ⟨?_, ?_, ?_⟩
  · intro ws spends thr today h
    unfold _score_budget
    rw [if_pos h]
  · intro w spends thr today h
    unfold _score_budget
    rcases h with h | h <;>
      by_cases hq4 : thr.q4_budget_exposure = some "informal_none" <;>
        simp [hq4, h]
  · intro w spends thr today h1 h2
    unfold _score_budget budgetSpecScore
    by_cases hq4 : thr.q4_budget_exposure = some "informal_none"
    · simp [hq4]
    · rw [if_neg hq4]
      simp only [decide_eq_false hq4, Bool.false_eq_true, if_false]
      cases hpb : w.planned_budget with
      | none => rfl
      | some pb =>
        by_cases hz : pb = 0
        · simp [hz]
        · simp [hz, timeElapsedPct_eq_spec,
            varianceBand_eq_specBand thr.budget_green thr.budget_amber h1 h2]

/-- C8 witness: a billable workstream with planned budget 1000 over a 10-day
span at day 5 with 800 spent, baseline cutoffs (amber −15 < green −5): code
and spec agree. -/
theorem C8_budget_scorer_witness :
    _score_budget (some ⟨0, 10, some 1000⟩) [800] baselineResolved 5 =
      budgetSpecScore ⟨0, 10, some 1000⟩ [800]
        (decide (baselineResolved.q4_budget_exposure = some "informal_none"))
        baselineResolved.budget_green baselineResolved.budget_amber 5 :=
  C8_budget_scorer.2.2 ⟨0, 10, some 1000⟩ [800] baselineResolved 5
    (by norm_num [baselineResolved]) (by norm_num [baselineResolved])

/-- A successfully computed result always carries one of the three legal
statuses, because its status is produced by `ragStatusOf`. -/
lemma calculateRagCore_ok_status (env : Env) (r : ScoreResult)
    (h : calculateRagCore env = Except.ok r) :
    r.rag_status = "green" ∨ r.rag_status = "amber" ∨ r.rag_status = "red" := by
  rcases hdb : env.dbFailure with _ | e
  · simp only [calculateRagCore, hdb] at h
    rcases hs : _score_schedule env.ws env.milestones
        (_apply_wizard_modifiers (env.wizard.getD emptyWizardConfig)) env.today
      with e | q
    · rw [hs] at h
      exact absurd h (by simp)
    · rw [hs] at h
      simp only [Except.ok.injEq] at h
      subst h
      exact ragStatusOf_cases _
  · simp only [calculateRagCore, hdb] at h
    exact absurd h (by simp)

/-- C2: `calculate_rag` is a total function (the Lean embedding returns a
`ScoreResult` for every environment — no exception escapes), its result
always carries a legal status, and the failure path is exactly the spec's
three-tier fallback: a fresh result when the main block succeeds; the last
persisted row returned unchanged when the main block fails and the
read-back succeeds on an existing row; and the fully-zeroed red/stale
sentinel when no prior row exists (or the read-back itself fails). -/
theorem C2_calculate_rag_never_raises (env : Env)
    (hwf : ∀ r, env.prior = some r →
      r.rag_status = "green" ∨ r.rag_status = "amber" ∨ r.rag_status = "red") :
    ((calculate_rag env).rag_status = "green"
      ∨ (calculate_rag env).rag_status = "amber"
      ∨ (calculate_rag env).rag_status = "red")
    ∧ (∀ r, calculateRagCore env = Except.ok r → calculate_rag env = r)
    ∧ (∀ e, calculateRagCore env = Except.error e →
        (env.fallbackFailure = false → ∀ r, env.prior = some r → calculate_rag env = r)
        ∧ (env.fallbackFailure = true ∨ env.prior = none →
            calculate_rag env = zeroedResult))
    ∧ zeroedResult.rag_status = "red" ∧ zeroedResult.is_stale = true
    ∧ zeroedResult.schedule_score = 0 ∧ zeroedResult.budget_score = 0
    ∧ zeroedResult.blocker_score = 0 ∧ zeroedResult.composite_score = 0 := by
  refine ⟨?_, ?_, ?_, rfl, rfl, rfl, rfl, rfl, rfl⟩
  · rcases hc : calculateRagCore env with e | r
    · cases hf : env.fallbackFailure with
      | false =>
        rcases hp : env.prior with _ | r
        · simp only [calculate_rag, hc, hf, hp]
          exact Or.inr (Or.inr rfl)
        · have hr := hwf r hp
          simpa only [calculate_rag, hc, hf, hp, Bool.false_eq_true, if_false] using hr
      | true =>
        simp only [calculate_rag, hc, hf, if_true]
        exact Or.inr (Or.inr rfl)
    · have hr := calculateRagCore_ok_status env r hc
      simpa only [calculate_rag, hc] using hr
  · intro r h
    simp only [calculate_rag, h]
  · intro e h
    constructor
    · intro hff r hp
      simp only [calculate_rag, h, hff, hp, Bool.false_eq_true, if_false]
    · intro hor
      rcases hor with hff | hp
      · simp only [calculate_rag, h, hff, if_true]
      · cases hf : env.fallbackFailure with
        | false => simp only [calculate_rag, h, hf, hp, Bool.false_eq_true, if_false]
        | true => simp only [calculate_rag, h, hf, if_true]

/-- C2 witness: an environment whose storage fails on the very first query
and that has no prior persisted row — `calculate_rag` still returns, with the
zeroed red/stale sentinel. -/
theorem C2_calculate_rag_never_raises_witness :
    calculate_rag ⟨none, none, [], [], [], 0, 0, some "connection refused", false, none⟩
      = zeroedResult :=
  ((C2_calculate_rag_never_raises
      ⟨none, none, [], [], [], 0, 0, some "connection refused", false, none⟩
      (fun _ h => by cases h)).2.2.1 "connection refused" rfl).2 (Or.inr rfl)

end Meridian
